import Mathlib

/-!
Verification of the nomad-driver-nix container driver.

This file gives a shallow embedding, in Lean 4, of the driver's pure core:
the OOM-correlation listener's serial loop and kernel-log parser
(nix/oom_listener.go), the machine-configuration validator and argument
builder (nix/nspawn.go), and the task lifecycle entry points
(nix/driver.go).  External effects (subprocess invocations, dbus calls,
filesystem reads) are modelled as oracle parameters carrying the outcome
the external world would produce, and the side effects a function performs
are reified as an explicit action trace.

Go maps are modelled as association lists with `mapSet` / `mapLookup` /
`mapErase` mirroring assignment, lookup and `delete`.  Where Go iterates
over a map (an order the Go runtime randomizes), the iteration order is an
explicit parameter.
-/

/-! ### Association-list model of Go maps -/

def mapLookup {α : Type} : List (String × α) → String → Option α
  | [], _ => none
  | (k, v) :: rest, key => if k = key then some v else mapLookup rest key

def mapSet {α : Type} : List (String × α) → String → α → List (String × α)
  | [], key, val => [(key, val)]
  | (k, v) :: rest, key, val =>
    if k = key then (k, val) :: rest else (k, v) :: mapSet rest key val

def mapErase {α : Type} : List (String × α) → String → List (String × α)
  | [], _ => []
  | (k, v) :: rest, key =>
    if k = key then mapErase rest key else (k, v) :: mapErase rest key

theorem mapLookup_set_self {α : Type} (m : List (String × α)) (k : String) (v : α) :
    mapLookup (mapSet m k v) k = some v := by
  induction m with
  | nil => simp [mapSet, mapLookup]
  | cons hd tl ih =>
    obtain ⟨k0, v0⟩ := hd
    by_cases h : k0 = k <;> simp [mapSet, mapLookup, h, ih]

theorem mapLookup_set_ne {α : Type} (m : List (String × α)) (k k' : String) (v : α)
    (h : k ≠ k') : mapLookup (mapSet m k v) k' = mapLookup m k' := by
  induction m with
  | nil => simp [mapSet, mapLookup, h]
  | cons hd tl ih =>
    obtain ⟨k0, v0⟩ := hd
    by_cases h0 : k0 = k
    · subst h0
      simp [mapSet, mapLookup, h]
    · simp [mapSet, mapLookup, h0]
      by_cases h1 : k0 = k' <;> simp [mapLookup, h1, ih]

theorem mapLookup_erase_self {α : Type} (m : List (String × α)) (k : String) :
    mapLookup (mapErase m k) k = none := by
  induction m with
  | nil => simp [mapErase, mapLookup]
  | cons hd tl ih =>
    obtain ⟨k0, v0⟩ := hd
    by_cases h : k0 = k <;> simp [mapErase, mapLookup, h, ih]

theorem mapLookup_erase_ne {α : Type} (m : List (String × α)) (k k' : String)
    (h : k ≠ k') : mapLookup (mapErase m k) k' = mapLookup m k' := by
  induction m with
  | nil => simp [mapErase, mapLookup]
  | cons hd tl ih =>
    obtain ⟨k0, v0⟩ := hd
    by_cases h0 : k0 = k
    · subst h0
      simp [mapErase, mapLookup, h, Ne.symm h, ih]
    · by_cases h1 : k0 = k' <;>
        simp [mapErase, mapLookup, h0, h1, Ne.symm h, ih]

/-! ### OOM listener (nix/oom_listener.go)

`OOMListener.loop` is a serial actor multiplexing three channels
(`register`, `deregister`, `oom`) over a private map `ids`.  We model one
iteration of its `select` as `loopStep` on the map state, an incoming
event as `LoopEvent`, and a send `reg.c <- oom` as an emitted delivery
pair (channel identifier, event).  `loopRun` processes a whole event
sequence, concatenating the deliveries. -/

structure OOM where
  machineID : String
  task : String
  pid : Nat
deriving DecidableEq, Repr

/-- A `registration{id, c, t}`; the channel is identified by a number and
the registration time is irrelevant to the loop, so it is omitted. -/
structure LoopRegistration where
  id : String
  ch : Nat
deriving DecidableEq, Repr

inductive LoopEvent
  | register (r : LoopRegistration)
  | deregister (id : String)
  | oom (e : OOM)
deriving DecidableEq, Repr

/-- The `ids` map of `OOMListener.loop`: machine identifier to channel. -/
abbrev LoopState := List (String × Nat)

/-- One iteration of the `select` in `OOMListener.loop`: a register
overwrites the entry, a deregister deletes it, and an OOM event is sent to
the registered channel (if any) and always deletes the entry. -/
def loopStep (s : LoopState) : LoopEvent → LoopState × List (Nat × OOM)
  | .register r => (mapSet s r.id r.ch, [])
  | .deregister id => (mapErase s id, [])
  | .oom e =>
    match mapLookup s e.machineID with
    | some ch => (mapErase s e.machineID, [(ch, e)])
    | none => (mapErase s e.machineID, [])

/-- Serial processing of an event sequence by `OOMListener.loop`. -/
def loopRun (s : LoopState) : List LoopEvent → LoopState × List (Nat × OOM)
  | [] => (s, [])
  | ev :: rest =>
    let (s1, d) := loopStep s ev
    let (s2, ds) := loopRun s1 rest
    (s2, d ++ ds)

/-- Number of deliveries for machine `m` in a delivery trace. -/
def deliveriesFor (m : String) (ds : List (Nat × OOM)) : Nat :=
  (ds.filter (fun p => p.2.machineID = m)).length

theorem deliveriesFor_append (m : String) (a b : List (Nat × OOM)) :
    deliveriesFor m (a ++ b) = deliveriesFor m a + deliveriesFor m b := by
  simp [deliveriesFor, List.filter_append]

/-- If `m` is unregistered and no later event registers it, the loop never
delivers an event for `m`. -/
theorem loopRun_no_delivery (m : String) (evs : List LoopEvent) :
    ∀ s : LoopState, mapLookup s m = none →
    (∀ r, LoopEvent.register r ∈ evs → r.id ≠ m) →
    deliveriesFor m (loopRun s evs).2 = 0 := by
  induction evs with
  | nil => intro s _ _; simp [loopRun, deliveriesFor]
  | cons ev rest ih =>
    intro s hnone hno
    have hrest : ∀ r, LoopEvent.register r ∈ rest → r.id ≠ m := by
      intro r hr; exact hno r (List.mem_cons_of_mem _ hr)
    cases ev with
    | register r =>
      have hne : r.id ≠ m := hno r (List.mem_cons_self _ _)
      have h1 : mapLookup (mapSet s r.id r.ch) m = none := by
        rw [mapLookup_set_ne s r.id m r.ch hne]; exact hnone
      simp only [loopRun, loopStep]
      rw [deliveriesFor_append, ih _ h1 hrest]
      rfl
    | deregister id =>
      have h1 : mapLookup (mapErase s id) m = none := by
        by_cases h : id = m
        · subst h; exact mapLookup_erase_self s id
        · rw [mapLookup_erase_ne s id m h]; exact hnone
      simp only [loopRun, loopStep]
      rw [deliveriesFor_append, ih _ h1 hrest]
      rfl
    | oom e =>
      by_cases he : e.machineID = m
      · subst he
        have h1 : mapLookup (mapErase s e.machineID) e.machineID = none :=
          mapLookup_erase_self s e.machineID
        simp only [loopRun, loopStep, hnone]
        rw [deliveriesFor_append, ih _ h1 hrest]
        rfl
      · have h1 : mapLookup (mapErase s e.machineID) m = none := by
          rw [mapLookup_erase_ne s e.machineID m he]; exact hnone
        simp only [loopRun, loopStep]
        cases hl : mapLookup s e.machineID with
        | some ch =>
          rw [deliveriesFor_append]
          have h2 : deliveriesFor m [(ch, e)] = 0 := by
            simp [deliveriesFor, he]
          rw [h2, ih _ h1 hrest]
        | none =>
          rw [deliveriesFor_append, ih _ h1 hrest]
          rfl

/-- Claim C1: the OOM listener's serial loop delivers at most once per
registration and respects deregistration.  (a) Registering machine `M` and
then processing an OOM event for `M` delivers that event on the registered
channel and removes the registration.  (b) Processing a `Deregister` for
`M` first means no later event sequence (containing no new registration of
`M`) ever delivers an event for `M`.  (c) Two OOM events for `M` after a
single registration yield exactly one delivery, hence at most one. -/
theorem C1_oom_loop_exactly_once
    (s : LoopState) (M : String) (ch : Nat) (e e1 e2 : OOM)
    (he : e.machineID = M) (he1 : e1.machineID = M) (he2 : e2.machineID = M)
    (evs : List LoopEvent) (hno : ∀ r, LoopEvent.register r ∈ evs → r.id ≠ M) :
    ((loopRun s [.register ⟨M, ch⟩, .oom e]).2 = [(ch, e)] ∧
      mapLookup (loopRun s [.register ⟨M, ch⟩, .oom e]).1 M = none) ∧
    deliveriesFor M (loopRun (loopStep s (.deregister M)).1 evs).2 = 0 ∧
    deliveriesFor M (loopRun s [.register ⟨M, ch⟩, .oom e1, .oom e2]).2 = 1 := by
  refine ⟨⟨?_, ?_⟩, ?_, ?_⟩
  · simp only [loopRun, loopStep, he, mapLookup_set_self]
    rfl
  · simp only [loopRun, loopStep, he, mapLookup_set_self, mapLookup_erase_self]
  · have h1 : mapLookup (mapErase s M) M = none := mapLookup_erase_self s M
    simpa only [loopStep] using loopRun_no_delivery M evs (mapErase s M) h1 hno
  · simp only [loopRun, loopStep, he1, mapLookup_set_self, he2,
      mapLookup_erase_self]
    rw [deliveriesFor_append, deliveriesFor_append]
    simp [deliveriesFor, he1]

/-- Witness for C1 at concrete inputs. -/
theorem C1_oom_loop_exactly_once_witness :
    (((loopRun [] [.register ⟨"m1", 7⟩, .oom ⟨"m1", "bash", 42⟩]).2
        = [(7, ⟨"m1", "bash", 42⟩)] ∧
      mapLookup (loopRun []
        [.register ⟨"m1", 7⟩, .oom ⟨"m1", "bash", 42⟩]).1 "m1" = none) ∧
    deliveriesFor "m1"
      (loopRun (loopStep [] (.deregister "m1")).1
        [.oom ⟨"m1", "bash", 42⟩]).2 = 0 ∧
    deliveriesFor "m1" (loopRun []
      [.register ⟨"m1", 7⟩, .oom ⟨"m1", "bash", 42⟩,
        .oom ⟨"m1", "sh", 43⟩]).2 = 1) :=
  C1_oom_loop_exactly_once [] "m1" 7 ⟨"m1", "bash", 42⟩ ⟨"m1", "bash", 42⟩
    ⟨"m1", "sh", 43⟩ rfl rfl rfl [.oom ⟨"m1", "bash", 42⟩]
    (by intro r hr; simp at hr)

/-! ### Kernel-log parser (nix/oom_listener.go, `parseLine`)

`parseLine` inspects one kernel log message.  A line starting with
`oom-kill:` is split on commas into `key=value` fields; `oom_memcg` is
hex-unescaped and matched against `^/machine\.slice/machine-(.+)\.scope$`,
`pid` is parsed by `strconv.ParseUint`, `task` is taken verbatim; the
resulting event is sent on the `oom` channel.  Other lines have no effect.
Go slice indexing that is out of range (`match[1]` on a failed regexp
match, `parts[1]` on a field without `=`) is a runtime panic, modelled by
the `panics` outcome.  Strings are handled as their character lists so
that every operation is structurally recursive. -/

inductive ParseOutcome
  | emits (e : OOM)
  | ignored
  | panics
deriving DecidableEq, Repr

/-- `strings.Split(s, ",")` on character lists (single-character separator,
empty input yields one empty field, as in Go). -/
def splitOnChar (c : Char) : List Char → List (List Char)
  | [] => [[]]
  | d :: rest =>
    let r := splitOnChar c rest
    if d = c then [] :: r
    else
      match r with
      | [] => [[d]]
      | grp :: more => (d :: grp) :: more

/-- Split at the first `=`, if any: the pair (before, after).  `none` means
the field contains no `=`, in which case `strings.SplitN(f, "=", 2)` in the
code returns the one-element slice `[f]`. -/
def splitFirstEq : List Char → Option (List Char × List Char)
  | [] => none
  | d :: rest =>
    if d = '=' then some ([], rest)
    else
      match splitFirstEq rest with
      | some (a, b) => some (d :: a, b)
      | none => none

/-- `strings.Replace(s, "\\x2d", "-", -1)`: left-to-right, non-overlapping
replacement of the four-character escape by a dash. -/
def unescapeScope : List Char → List Char
  | '\\' :: 'x' :: '2' :: 'd' :: rest => '-' :: unescapeScope rest
  | c :: rest => c :: unescapeScope rest
  | [] => []

def decimalValue (l : List Char) : Nat :=
  l.foldl (fun acc c => acc * 10 + (c.toNat - 48)) 0

/-- `strconv.ParseUint(s, 10, 64)` as assigned to `pid`: the parsed value
for a well-formed decimal, `2^64 - 1` on range overflow, and `0` on any
other parse error (Go returns `0` with the error, and the code ignores the
error beyond logging it). -/
def goParseUint64 (l : List Char) : Nat :=
  if l ≠ [] ∧ l.all Char.isDigit then
    if decimalValue l < 2 ^ 64 then decimalValue l else 2 ^ 64 - 1
  else 0

/-- The anchored regexp `^/machine\.slice/machine-(.+)\.scope$`: with the
greedy `(.+)` the capture group is everything strictly between the fixed
prefix and the trailing `.scope`. -/
def machineScopeMatch (scope : List Char) : Option (List Char) :=
  let pre := "/machine.slice/machine-".data
  let suf := ".scope".data
  if pre.isPrefixOf scope ∧ suf.isSuffixOf scope ∧
      pre.length + suf.length < scope.length then
    some ((scope.drop pre.length).take (scope.length - pre.length - suf.length))
  else
    none

structure ParseState where
  pid : Nat
  task : List Char
  id : List Char
deriving DecidableEq, Repr

/-- One iteration of the field loop in `parseLine`.  `none` models a Go
panic: `parts[1]` when the field has no `=`, or `match[1]` when the
`oom_memcg` value does not match the machine-scope pattern (the code logs
an error in that case but then indexes the empty match anyway). -/
def processField (st : ParseState) (f : List Char) : Option ParseState :=
  match splitFirstEq f with
  | none =>
    if f = "oom_memcg".data ∨ f = "pid".data ∨ f = "task".data then none
    else some st
  | some (a, b) =>
    if a = "oom_memcg".data then
      match machineScopeMatch (unescapeScope b) with
      | some mid => some { st with id := mid }
      | none => none
    else if a = "pid".data then some { st with pid := goParseUint64 b }
    else if a = "task".data then some { st with task := b }
    else some st

def processFields : List (List Char) → ParseState → Option ParseState
  | [], st => some st
  | f :: rest, st =>
    match processField st f with
    | some st1 => processFields rest st1
    | none => none

/-- `OOMListener.parseLine`: emits exactly one OOM event for an `oom-kill:`
line whose fields all process without panicking, ignores every other line,
and panics where the Go code would. -/
def parseLine (line : String) : ParseOutcome :=
  if "oom-kill:".data.isPrefixOf line.data then
    match processFields (splitOnChar ',' line.data) ⟨0, [], []⟩ with
    | some st => .emits ⟨⟨st.id⟩, ⟨st.task⟩, st.pid⟩
    | none => .panics
  else
    .ignored

set_option maxRecDepth 20000 in
/-- Claim C7 (code bug): `parseLine` is not total on `oom-kill:` lines.  On
the documented well-formed line it emits the correct event, and summary
lines are ignored, but an `oom-kill:` line whose `oom_memcg` field does
not match the `machine-<id>.scope` pattern makes the code index `match[1]`
on an empty regexp match — an out-of-range panic — instead of being
ignored as the specification states. -/
theorem C7_parseLine_panics_on_unmatched_memcg :
    parseLine ("oom-kill:constraint=CONSTRAINT_MEMCG,nodemask=(null)," ++
        "cpuset=payload,mems_allowed=0,oom_memcg=/user.slice/user-0.slice," ++
        "task=bash,pid=980323,uid=0") = .panics ∧
    parseLine ("oom-kill:constraint=CONSTRAINT_MEMCG,nodemask=(null)," ++
        "cpuset=payload,mems_allowed=0," ++
        "oom_memcg=/machine.slice/machine-oom\\x2d9706.scope," ++
        "task_memcg=/machine.slice/machine-oom\\x2d9706.scope/payload," ++
        "task=bash,pid=980323,uid=0") =
      .emits ⟨"oom-9706", "bash", 980323⟩ ∧
    parseLine ("Memory cgroup out of memory: Killed process 2933082 " ++
        "(bash) total-vm:1051956kB") = .ignored ∧
    parseLine "oom_reaper: reaped process 2931684 (bash)" = .ignored := by
  refine ⟨by decide, by decide, by decide, by decide⟩

/-! ### Machine configuration (nix/nspawn.go)

`MachineConfig` carries every task-configurable container option.  Go
string maps become association lists; the unexported `imagePath` field is
kept.  `filepath.IsAbs` on Linux is `strings.HasPrefix(path, "/")`. -/

structure ImageDownloadOpts where
  url : String := ""
  declaredType : String := ""
  force : Bool := false
  verify : String := ""
deriving DecidableEq, Repr

structure MachineConfig where
  bind : List (String × String) := []
  bindReadOnly : List (String × String) := []
  boot : Bool := false
  capability : List String := []
  command : List String := []
  console : String := ""
  environment : List (String × String) := []
  ephemeral : Bool := false
  image : String := ""
  imageDownload : Option ImageDownloadOpts := none
  machine : String := ""
  networkNamespace : String := ""
  networkVeth : Bool := false
  networkZone : String := ""
  pivotRoot : String := ""
  port : List (String × String) := []
  ports : List String := []
  portMap : List (String × Int) := []
  processTwo : Bool := false
  properties : List (String × String) := []
  readOnly : Bool := false
  resolvConf : String := ""
  user : String := ""
  userNamespacing : Bool := false
  volatile : String := ""
  workingDirectory : String := ""
  imagePath : String := ""
  directory : String := ""
  linkJournal : String := ""
  nixOS : String := ""
  nixPackages : List String := []
  sanitizeNames : Option Bool := none
deriving DecidableEq, Repr

def MachineConfig.isNixOS (c : MachineConfig) : Bool := c.nixOS ≠ ""

def MachineConfig.isNixPackages (c : MachineConfig) : Bool :=
  c.nixPackages.length > 0

/-- `filepath.IsAbs` on Linux. -/
def isAbsPath (p : List Char) : Bool :=
  match p with
  | '/' :: _ => true
  | _ => false

/-- The `image_download.type` switch of `Validate`. -/
def badDownloadDeclaredType : Option ImageDownloadOpts → Bool
  | some d => ¬ ["raw", "tar"].contains d.declaredType
  | none => false

/-- The `image_download.verify` switch of `Validate`. -/
def badDownloadVerify : Option ImageDownloadOpts → Bool
  | some d => ¬ ["no", "checksum", "signature"].contains d.verify
  | none => false

/-- `MachineConfig.Validate`: `none` is a nil error, `some` carries the Go
error message.  The checks run in exactly the source order. -/
def MachineConfig.Validate (c : MachineConfig) : Option String :=
  if ¬ ["", "no", "host", "try-host", "guest", "try-guest", "auto"].contains
      c.linkJournal then
    some "invalid parameter for link_journal"
  else if ¬ ["", "yes", "state", "overlay", "no"].contains c.volatile then
    some "invalid parameter for volatile"
  else if ¬ ["", "interactive", "read-only", "passive", "pipe"].contains
      c.console then
    some "invalid parameter for console"
  else if ¬ ["", "off", "copy-host", "copy-static", "copy-uplink",
      "copy-stub", "replace-host", "replace-static", "replace-uplink",
      "replace-stub", "bind-host", "bind-static", "bind-uplink",
      "bind-stub", "delete", "auto"].contains c.resolvConf then
    some "invalid parameter for resolv_conf"
  else if c.boot ∧ c.processTwo then
    some "boot and process_two may not be combined"
  else if c.volatile ≠ "" ∧ c.userNamespacing then
    some "volatile and user_namespacing may not be combined"
  else if c.readOnly ∧ c.userNamespacing then
    some "read_only and user_namespacing may not be combined"
  else if c.workingDirectory ≠ "" ∧ ¬ isAbsPath c.workingDirectory.data then
    some "working_directory is not an absolute path"
  else if c.pivotRoot ≠ "" ∧
      ¬ (splitOnChar ':' c.pivotRoot.data).all isAbsPath then
    some "pivot_root is not an absolute path"
  else if c.image = "/" ∧
      ¬ (c.ephemeral ∨ c.volatile = "yes" ∨ c.volatile = "state") then
    some ("starting a container from the root directory is not supported. " ++
      "Use ephemeral or volatile")
  else if badDownloadDeclaredType c.imageDownload then
    some "invalid parameter for image_download.type"
  else if badDownloadVerify c.imageDownload then
    some "invalid parameter for image_download.verify"
  else if c.isNixOS ∧ c.isNixPackages then
    some "nixos and packages may not be combined"
  else
    none

theorem isSome_ite_some_left {P : Prop} [Decidable P] {e : String}
    {o : Option String} (h : o.isSome = true) :
    (if P then some e else o).isSome = true := by
  split <;> simp [h]

/-- Claim C2: `Validate` rejects every mutually exclusive option pair,
whichever field was set: boot with process-as-pid2, volatile with
user-namespacing, read-only with user-namespacing, and a NixOS reference
together with a non-empty package list, always produce an error. -/
theorem C2_validate_rejects_exclusive_pairs (c : MachineConfig)
    (h : (c.boot ∧ c.processTwo) ∨ (c.volatile ≠ "" ∧ c.userNamespacing) ∨
      (c.readOnly ∧ c.userNamespacing) ∨
      (c.nixOS ≠ "" ∧ c.nixPackages ≠ [])) :
    (MachineConfig.Validate c).isSome := by
  unfold MachineConfig.Validate
  rcases h with ⟨h1, h2⟩ | ⟨h1, h2⟩ | ⟨h1, h2⟩ | ⟨h1, h2⟩
  · apply isSome_ite_some_left
    apply isSome_ite_some_left
    apply isSome_ite_some_left
    apply isSome_ite_some_left
    rw [if_pos ⟨h1, h2⟩]
    rfl
  · apply isSome_ite_some_left
    apply isSome_ite_some_left
    apply isSome_ite_some_left
    apply isSome_ite_some_left
    apply isSome_ite_some_left
    rw [if_pos ⟨h1, h2⟩]
    rfl
  · apply isSome_ite_some_left
    apply isSome_ite_some_left
    apply isSome_ite_some_left
    apply isSome_ite_some_left
    apply isSome_ite_some_left
    apply isSome_ite_some_left
    rw [if_pos ⟨h1, h2⟩]
    rfl
  · have hn : c.isNixOS = true ∧ c.isNixPackages = true :=
      ⟨by simpa [MachineConfig.isNixOS] using h1,
        by simpa [MachineConfig.isNixPackages] using List.length_pos.mpr h2⟩
    apply isSome_ite_some_left
    apply isSome_ite_some_left
    apply isSome_ite_some_left
    apply isSome_ite_some_left
    apply isSome_ite_some_left
    apply isSome_ite_some_left
    apply isSome_ite_some_left
    apply isSome_ite_some_left
    apply isSome_ite_some_left
    apply isSome_ite_some_left
    apply isSome_ite_some_left
    apply isSome_ite_some_left
    rw [if_pos hn]
    rfl

/-- Witness for C2 at a concrete configuration. -/
theorem C2_validate_rejects_exclusive_pairs_witness :
    (MachineConfig.Validate { boot := true, processTwo := true }).isSome :=
  C2_validate_rejects_exclusive_pairs { boot := true, processTwo := true }
    (Or.inl (by decide))

/-! ### Machine-name sanitization (nix/driver.go, `sanitizeName` / `StartTask`)

`sanitizeName = regexp.MustCompile("[^a-zA-Z0-9-]+")`; `StartTask` replaces
every maximal run of disallowed characters by one dash, truncates the
result to at most 27 bytes (all output characters are ASCII, so bytes are
characters), and appends `"-" + AllocID`. -/

def allowedChar (c : Char) : Bool := c.isAlphanum || c == '-'

/-- `sanitizeName.ReplaceAllString(name, "-")`: each maximal run of
characters outside `[a-zA-Z0-9-]` becomes a single dash.  The flag records
whether the previous character was part of such a run. -/
def sanitizeRuns (inRun : Bool) : List Char → List Char
  | [] => []
  | c :: rest =>
    if allowedChar c then c :: sanitizeRuns false rest
    else if inRun then sanitizeRuns true rest
    else '-' :: sanitizeRuns true rest

def sanitizeNameGo (s : List Char) : List Char := sanitizeRuns false s

/-- The sanitized machine-name prefix: `saneName[0:cut]` with
`cut = min (len saneName) 27`. -/
def sanePrefix (name : List Char) : List Char := (sanitizeNameGo name).take 27

/-- The machine name `StartTask` derives from the task name and the
allocation ID (sanitization enabled by default). -/
def machineNameFor (sanitize : Bool) (name allocID : String) : String :=
  if sanitize then ⟨sanePrefix name.data⟩ ++ "-" ++ allocID
  else name ++ "-" ++ allocID

theorem sanitizeRuns_of_allowed (l : List Char) (h : l.all allowedChar) :
    ∀ b, sanitizeRuns b l = l := by
  induction l with
  | nil => intro b; rfl
  | cons c rest ih =>
    intro b
    simp only [List.all_cons, Bool.and_eq_true] at h
    simp [sanitizeRuns, h.1, ih h.2]

/-- Claim C6: name sanitization is idempotent and bounded: the sanitized
machine-name prefix never exceeds 27 characters, and sanitizing an
already-sanitized name (one containing only `[a-zA-Z0-9-]`) of length at
most 27 returns it unchanged. -/
theorem C6_sanitize_idempotent_bounded (name : List Char) :
    (sanePrefix name).length ≤ 27 ∧
    (name.all allowedChar → name.length ≤ 27 → sanePrefix name = name) := by
  constructor
  · simp [sanePrefix]
  · intro hall hlen
    unfold sanePrefix sanitizeNameGo
    rw [sanitizeRuns_of_allowed name hall false]
    exact List.take_of_length_le hlen

/-- Witness for C6 at a concrete task name. -/
theorem C6_sanitize_idempotent_bounded_witness :
    (sanePrefix "web-task-1".data).length ≤ 27 ∧
    (sanePrefix "web-task-1".data = "web-task-1".data) := by
  have h := C6_sanitize_idempotent_bounded "web-task-1".data
  exact ⟨h.1, h.2 (by decide) (by decide)⟩

/-! ### Container-supervisor argument vector (nix/nspawn.go, `ConfigArray`)

`ConfigArray` appends flags in source order: the image flag pair, the
scalar flags, then one repeated flag group per Go map (`Bind`,
`BindReadOnly`, `Environment`, `Port`, `Properties`), then capability,
network-zone and the trailing command vector.  The Go runtime randomizes
map iteration order, so each map's iteration order is a parameter, to be
constrained to a permutation of the map's entries.  `os.Stat` on the image
path is the `statIsDir` oracle. -/

def argsFor (f : String × String → List String) :
    List (String × String) → List String
  | [] => []
  | kv :: rest => f kv ++ argsFor f rest

theorem argsFor_perm (f : String × String → List String)
    {l1 l2 : List (String × String)} (h : l1.Perm l2) :
    (argsFor f l1).Perm (argsFor f l2) := by
  induction h with
  | nil => exact .refl _
  | cons x _ ih => exact ih.append_left (f x)
  | swap x y l =>
    show (f y ++ (f x ++ argsFor f l)).Perm (f x ++ (f y ++ argsFor f l))
    rw [← List.append_assoc, ← List.append_assoc]
    exact List.perm_append_comm.append_right _
  | trans _ _ ih1 ih2 => exact ih1.trans ih2

/-- The single-valued flags of `ConfigArray`, in source order. -/
def scalarFlagArgs (c : MachineConfig) : List String :=
  (if c.linkJournal ≠ "" then ["--link-journal", c.linkJournal] else [])
  ++ (if c.directory ≠ "" then ["--directory", c.directory] else [])
  ++ (if c.boot then ["--boot"] else [])
  ++ (if c.ephemeral then ["--ephemeral"] else [])
  ++ (if c.networkVeth then ["--network-veth"] else [])
  ++ (if c.networkNamespace ≠ "" then
      ["--network-namespace-path", c.networkNamespace] else [])
  ++ (if c.processTwo then ["--as-pid2"] else [])
  ++ (if c.readOnly then ["--read-only"] else [])
  ++ (if c.userNamespacing then ["-U"] else [])
  ++ (if c.console ≠ "" then ["--console=" ++ c.console] else [])
  ++ (if c.machine ≠ "" then ["--machine", c.machine] else [])
  ++ (if c.pivotRoot ≠ "" then ["--pivot-root", c.pivotRoot] else [])
  ++ (if c.resolvConf ≠ "" then ["--resolv-conf", c.resolvConf] else [])
  ++ (if c.user ≠ "" then ["--user", c.user] else [])
  ++ (if c.volatile ≠ "" then ["--volatile=" ++ c.volatile] else [])
  ++ (if c.workingDirectory ≠ "" then ["--chdir", c.workingDirectory] else [])

/-- The flags following the map-driven groups, in source order. -/
def tailArgs (c : MachineConfig) : List String :=
  (if c.capability.length > 0 then
    ["--capability", String.intercalate "," c.capability] else [])
  ++ (if c.networkZone.length > 0 then ["--network-zone=" ++ c.networkZone]
      else [])
  ++ (if c.command.length > 0 then c.command else [])

/-- The argument vector from the scalar flags onward: scalar flags, the
five map-driven repeated-flag groups in source order, then the tail. -/
def restArgs (c : MachineConfig)
    (bindOrder bindROOrder envOrder portOrder propOrder :
      List (String × String)) : List String :=
  scalarFlagArgs c
  ++ argsFor (fun kv => ["--bind", kv.1 ++ ":" ++ kv.2]) bindOrder
  ++ argsFor (fun kv => ["--bind-ro", kv.1 ++ ":" ++ kv.2]) bindROOrder
  ++ argsFor (fun kv => ["-E", kv.1 ++ "=" ++ kv.2]) envOrder
  ++ argsFor (fun kv => ["-p", kv.2]) portOrder
  ++ argsFor (fun kv => ["--property", kv.1 ++ "=" ++ kv.2]) propOrder
  ++ tailArgs c

theorem restArgs_perm (c : MachineConfig)
    {b1 b2 r1 r2 e1 e2 p1 p2 q1 q2 : List (String × String)}
    (hb : b1.Perm b2) (hr : r1.Perm r2) (he : e1.Perm e2)
    (hp : p1.Perm p2) (hq : q1.Perm q2) :
    (restArgs c b1 r1 e1 p1 q1).Perm (restArgs c b2 r2 e2 p2 q2) :=
  ((((((List.Perm.refl (scalarFlagArgs c)).append
    (argsFor_perm _ hb)).append (argsFor_perm _ hr)).append
    (argsFor_perm _ he)).append (argsFor_perm _ hp)).append
    (argsFor_perm _ hq)).append (List.Perm.refl (tailArgs c))

/-- `MachineConfig.ConfigArray`.  `statIsDir` is the result of
`os.Stat(c.imagePath)` (`.ok isDir` or the stat error); the five order
parameters are the iteration orders of the five Go maps. -/
def ConfigArray (c : MachineConfig) (statIsDir : Except String Bool)
    (bindOrder bindROOrder envOrder portOrder propOrder :
      List (String × String)) : Except String (List String) :=
  if c.image ≠ "" then
    match statIsDir with
    | .error e => .error e
    | .ok isDir =>
      .ok ((if isDir then ["-D", c.imagePath] else ["-i", c.imagePath])
        ++ restArgs c bindOrder bindROOrder envOrder portOrder propOrder)
  else
    .ok (restArgs c bindOrder bindROOrder envOrder portOrder propOrder)

/-- Claim C5 counterexample: `ConfigArray` is not deterministic on
identical input.  Iterating the two-entry `Bind` map in its two possible
orders — both permutations of the same map — produces two different
argument vectors, so the positional order of the repeated flags is not
stable across invocations. -/
theorem C5_configArray_not_order_deterministic :
    (([("a", "1"), ("b", "2")] : List (String × String)).Perm
      [("a", "1"), ("b", "2")] ∧
     ([("b", "2"), ("a", "1")] : List (String × String)).Perm
      [("a", "1"), ("b", "2")]) ∧
    ConfigArray { bind := [("a", "1"), ("b", "2")] } (.ok false)
      [("a", "1"), ("b", "2")] [] [] [] [] =
      .ok ["--bind", "a:1", "--bind", "b:2"] ∧
    ConfigArray { bind := [("a", "1"), ("b", "2")] } (.ok false)
      [("b", "2"), ("a", "1")] [] [] [] [] =
      .ok ["--bind", "b:2", "--bind", "a:1"] ∧
    (["--bind", "a:1", "--bind", "b:2"] : List String) ≠
      ["--bind", "b:2", "--bind", "a:1"] := by
  refine ⟨⟨List.Perm.refl _, List.Perm.swap _ _ _⟩, rfl, rfl, by decide⟩

/-- Claim C5 (amended): `ConfigArray` is deterministic given identical
input together with identical map-iteration orders, and for any two
iteration orders of the same maps the two argument vectors agree up to a
permutation (same flags, same multiplicities); on a stat failure both
invocations return the same error. -/
theorem C5_configArray_deterministic_up_to_map_order
    (c : MachineConfig) (statIsDir : Except String Bool)
    (b1 b2 r1 r2 e1 e2 p1 p2 q1 q2 : List (String × String))
    (hb : b1.Perm b2) (hr : r1.Perm r2) (he : e1.Perm e2)
    (hp : p1.Perm p2) (hq : q1.Perm q2) :
    ConfigArray c statIsDir b1 r1 e1 p1 q1 =
      ConfigArray c statIsDir b1 r1 e1 p1 q1 ∧
    (match ConfigArray c statIsDir b1 r1 e1 p1 q1,
        ConfigArray c statIsDir b2 r2 e2 p2 q2 with
      | .ok l1, .ok l2 => l1.Perm l2
      | .error a, .error b => a = b
      | _, _ => False) := by
  refine ⟨rfl, ?_⟩
  unfold ConfigArray
  by_cases him : c.image ≠ ""
  · simp only [if_pos him]
    cases statIsDir with
    | error e => exact rfl
    | ok isDir =>
      exact (List.Perm.refl _).append (restArgs_perm c hb hr he hp hq)
  · simp only [if_neg him]
    exact restArgs_perm c hb hr he hp hq

/-- Witness for the amended C5 at concrete orders. -/
theorem C5_configArray_deterministic_up_to_map_order_witness :
    (match ConfigArray { bind := [("a", "1"), ("b", "2")] } (.ok false)
        [("a", "1"), ("b", "2")] [] [] [] [],
      ConfigArray { bind := [("a", "1"), ("b", "2")] } (.ok false)
        [("b", "2"), ("a", "1")] [] [] [] [] with
      | .ok l1, .ok l2 => l1.Perm l2
      | .error a, .error b => a = b
      | _, _ => False) :=
  (C5_configArray_deterministic_up_to_map_order
    { bind := [("a", "1"), ("b", "2")] } (.ok false)
    [("a", "1"), ("b", "2")] [("b", "2"), ("a", "1")] [] [] [] [] [] [] [] []
    (List.Perm.swap _ _ _).symm (List.Perm.refl _) (List.Perm.refl _)
    (List.Perm.refl _) (List.Perm.refl _)).2

/-! ### Image preparation (nix/nspawn.go, `prepareNixOS` / `prepareNixPackages`
/ `createUsr`)

The external `nix` invocations (`nixBuild`, `nix profile install`,
`nix build` of the closure expression, `nix path-info --recursive`) and
directory reads are oracles; the side effects a preparation step performs
are recorded as `StartAction`s.  `filepath.Join` is modelled for cleaned,
slash-free components as slash concatenation. -/

inductive StartAction
  | registerOOM (machine : String)
  | emitTaskEvent (message : String)
  | nixBuild (flake : String)
  | buildProfile (flakes : List String) (profileLink : String)
  | buildClosure (flakes : List String) (closureLink : String)
  | queryRequisites (path : String)
  | mkdirUsr (path : String)
  | downloadImage (url : String)
  | statImage (path : String)
  | createExecutor
  | launch (args : List String)
  | shutdownExec
  | killPlugin
  | describeMachine (name : String)
  | getAddresses (name : String)
  | configureIPTables (del : Bool) (ifaces : List String)
  | setDriverState
  | storeTask (id : String)
deriving DecidableEq, Repr

def pathJoin (a b : String) : String := a ++ "/" ++ b

/-- `MachineConfig.createUsr`: makes `Directory/usr` unless some read-only
bind target `guestDir` satisfies `strings.HasPrefix("/usr/", guestDir)` —
note the argument order in the source: the check is whether the fixed
string `"/usr/"` starts with the guest path, not whether the guest path
lies under `/usr`. -/
def createUsr (c : MachineConfig) : List StartAction :=
  if c.bindReadOnly.any (fun kv => kv.2.data.isPrefixOf "/usr/".data) then []
  else [.mkdirUsr (pathJoin c.directory "usr")]

structure NixOSOracle where
  closureResult : Except String String
  toplevelResult : Except String String
  requisitesResult : Except String (List String)
deriving Repr

/-- `MachineConfig.prepareNixOS`: two `nix build` steps (closure artifact,
toplevel artifact), fixed bind mounts, identity bind mounts for the full
requisite closure, then `createUsr` and the `/init` command default. -/
def prepareNixOS (c : MachineConfig) (dir : String) (o : NixOSOracle) :
    Except String MachineConfig × List StartAction :=
  let flake := c.nixOS ++ ".config.system.build"
  match o.closureResult with
  | .error e =>
    (.error ("Build of the flake failed: buildClosure failed: " ++ e),
      [.nixBuild (flake ++ ".closure")])
  | .ok closure =>
    match o.toplevelResult with
    | .error e =>
      (.error ("Build of the flake failed: buildToplevel failed: " ++ e),
        [.nixBuild (flake ++ ".closure"), .nixBuild (flake ++ ".toplevel")])
    | .ok toplevel =>
      let acts := [StartAction.nixBuild (flake ++ ".closure"),
        StartAction.nixBuild (flake ++ ".toplevel")]
      let bro1 := mapSet c.bindReadOnly toplevel toplevel
      let bro2 := mapSet bro1 (pathJoin closure "registration") "/registration"
      let bro3 := mapSet bro2 (pathJoin toplevel "init") "/init"
      let bro4 := mapSet bro3 (pathJoin toplevel "sw") "/sw"
      match o.requisitesResult with
      | .error e =>
        (.error ("Couldn't determine flake requisites: " ++ e),
          acts ++ [.queryRequisites closure])
      | .ok reqs =>
        let bro5 := reqs.foldl (fun m r => mapSet m r r) bro4
        let c1 := { c with bindReadOnly := bro5, directory := dir }
        let usrActs := createUsr c1
        let c2 := if c1.command.length = 0 then { c1 with command := ["/init"] }
          else c1
        (.ok c2, acts ++ [.queryRequisites closure] ++ usrActs)

structure PkgOracle where
  cwd : String
  profileResult : Except String String
  closureResult : Except String String
  profileEntries : Except String (List String)
  etcEntries : Except String (List String)
  requisitesResult : Except String (List String)
deriving Repr

/-- The regexp rewrite in `nixBuildClosure`: `^path:\.(.*)$` becomes
`path:<cwd><rest>`. -/
def rewriteFlakePath (cwd f : String) : String :=
  if "path:.".data.isPrefixOf f.data then "path:" ++ cwd ++ ⟨f.data.drop 6⟩
  else f

/-- The profile-entry loop of `prepareNixPackages`: every top-level entry
except `etc` is bound by basename into the container root; entries under
`etc` are bound individually into `/etc`, skipping `resolv.conf`. -/
def addProfileEntries (profile : String) (etcDir : Except String (List String)) :
    List String → List (String × String) →
    Except String (List (String × String))
  | [], m => .ok m
  | name :: rest, m =>
    if name ≠ "etc" then
      addProfileEntries profile etcDir rest
        (mapSet m (pathJoin profile name) ("/" ++ name))
    else
      match etcDir with
      | .error e => .error ("Couldn't read profile's /etc directory: " ++ e)
      | .ok etcNames =>
        addProfileEntries profile etcDir rest
          (etcNames.foldl (fun mm en =>
            if en = "resolv.conf" then mm
            else mapSet mm (pathJoin (pathJoin profile "etc") en)
              ("/etc/" ++ en)) m)

/-- `MachineConfig.prepareNixPackages`: a profile build merging the
requested packages, a closure build over the (`path:.`-rewritten) same
references, profile-entry and requisite bind mounts, `createUsr`, and a
`PATH=/bin` environment default. -/
def prepareNixPackages (c : MachineConfig) (dir : String) (o : PkgOracle) :
    Except String MachineConfig × List StartAction :=
  let profileLink := pathJoin dir "current-profile"
  match o.profileResult with
  | .error e =>
    (.error ("Build of the flakes failed: " ++ e),
      [.buildProfile c.nixPackages profileLink])
  | .ok profile =>
    let closureLink := pathJoin dir "current-closure"
    let flakes1 := c.nixPackages.map (rewriteFlakePath o.cwd)
    match o.closureResult with
    | .error e =>
      (.error ("Build of the flakes failed: " ++ e),
        [.buildProfile c.nixPackages profileLink,
          .buildClosure flakes1 closureLink])
    | .ok closure =>
      let acts := [StartAction.buildProfile c.nixPackages profileLink,
        StartAction.buildClosure flakes1 closureLink]
      let bro1 := mapSet c.bindReadOnly profile profile
      match o.profileEntries with
      | .error e => (.error ("Couldn't read profile directory: " ++ e), acts)
      | .ok entries =>
        match addProfileEntries profile o.etcEntries entries bro1 with
        | .error e => (.error e, acts)
        | .ok bro2 =>
          let bro3 := mapSet bro2 (pathJoin closure "registration")
            "/registration"
          match o.requisitesResult with
          | .error e =>
            (.error ("Couldn't determine flake requisites: " ++ e),
              acts ++ [.queryRequisites closure])
          | .ok reqs =>
            let bro4 := reqs.foldl (fun m r => mapSet m r r) bro3
            let c1 :=
              { c with bindReadOnly := bro4, directory := dir, nixPackages := flakes1 }
            let usrActs := createUsr c1
            let env1 :=
              if (mapLookup c1.environment "PATH").isNone then
                mapSet c1.environment "PATH" "/bin"
              else c1.environment
            (.ok { c1 with environment := env1 },
              acts ++ [.queryRequisites closure] ++ usrActs)

instance {e a : Type} [DecidableEq e] [DecidableEq a] : DecidableEq (Except e a)
  | .ok x, .ok y => if h : x = y then isTrue (by simp [h]) else isFalse (by simp [h])
  | .error x, .error y => if h : x = y then isTrue (by simp [h]) else isFalse (by simp [h])
  | .ok _, .error _ => isFalse (by simp)
  | .error _, .ok _ => isFalse (by simp)

/-- Modelled from the spec's words for C8 ("no bound path already provides
one"): a bind target provides `/usr` when it is the container root, the
`/usr` directory itself, or a path at or below `/usr`. -/
def specProvidesUsr (target : String) : Bool :=
  target = "/" || target = "/usr" || target = "/usr/" ||
    "/usr/".data.isPrefixOf target.data

def isMkdirUsrAction : StartAction → Bool
  | .mkdirUsr _ => true
  | _ => false

/-- A package-list configuration carrying a read-only bind whose target is
`/u`: no bound path provides `/usr`, yet the swapped prefix check treats
`/u` as covering it. -/
def pkgCfgCE : MachineConfig := { bindReadOnly := [("/x", "/u")] }

def pkgOracleCE : PkgOracle :=
  { cwd := "/wd",
    profileResult := .ok "/nix/store/w-profile",
    closureResult := .ok "/nix/store/c-closure",
    profileEntries := .ok ["bin"],
    etcEntries := .ok [],
    requisitesResult := .ok ["/nix/store/b-bash"] }

set_option maxRecDepth 20000 in
/-- Claim C8 counterexample: preparing `pkgCfgCE` in package-list mode
yields a configuration none of whose read-only bind targets provides
`/usr`, yet no `usr` directory is created — `strings.HasPrefix("/usr/",
guestDir)` is true for the target `/u`, so `createUsr` is skipped. -/
theorem C8_createUsr_counterexample :
    ((prepareNixPackages pkgCfgCE "/task" pkgOracleCE).1.map
      (fun c => c.bindReadOnly.all (fun kv => ¬ specProvidesUsr kv.2)) =
        .ok true) ∧
    (prepareNixPackages pkgCfgCE "/task" pkgOracleCE).2.all
      (fun a => ¬ isMkdirUsrAction a) = true := by
  refine ⟨by decide, by decide⟩

def pkgOracleScenario : PkgOracle :=
  { cwd := "/wd",
    profileResult := .ok "/nix/store/w-profile",
    closureResult := .ok "/nix/store/c-closure",
    profileEntries := .ok ["bin", "share"],
    etcEntries := .ok [],
    requisitesResult := .ok ["/nix/store/b-bash", "/nix/store/d-coreutils"] }

set_option maxRecDepth 40000 in
/-- Claim C8 (amended): a `usr` subdirectory is created in the mutable
root exactly when no read-only bind target is a string prefix of the
fixed string `/usr/` (the source's swapped `HasPrefix` check — so `/usr`
and `/` suppress creation as intended, but so do `/u` and `/us`, while
paths strictly below `/usr` do not).  In the package-list scenario with a
merged bash/coreutils profile and no existing `/usr` mapping, the prepared
configuration maps the profile's `bin` directory to `/bin` and a `usr`
subdirectory is created. -/
theorem C8_usr_creation_amended :
    (∀ c : MachineConfig,
      (StartAction.mkdirUsr (pathJoin c.directory "usr") ∈ createUsr c ↔
        ∀ kv ∈ c.bindReadOnly, ¬ kv.2.data.isPrefixOf "/usr/".data)) ∧
    ((prepareNixPackages { } "/task" pkgOracleScenario).1.map
      (fun c => mapLookup c.bindReadOnly "/nix/store/w-profile/bin") =
        .ok (some "/bin")) ∧
    (prepareNixPackages { } "/task" pkgOracleScenario).2.any
      isMkdirUsrAction = true := by
  refine ⟨?_, by decide, by decide⟩
  intro c
  unfold createUsr
  by_cases h : c.bindReadOnly.any (fun kv => kv.2.data.isPrefixOf "/usr/".data)
  · simp only [if_pos h]
    simp only [List.any_eq_true] at h
    obtain ⟨kv, hmem, hpre⟩ := h
    simp only [List.not_mem_nil, false_iff, not_forall]
    exact ⟨kv, hmem, by simpa using hpre⟩
  · simp only [if_neg h]
    simp only [List.any_eq_true, not_exists, not_and] at h
    simp only [List.mem_singleton, true_iff]
    intro kv hmem
    simpa using h kv hmem

/-! ### StartTask (nix/driver.go)

`StartTask` is modelled from the point where the driver config has been
decoded (schema decoding is the external plugin transport).  The task's
caller-supplied data is `TaskCfg`; `cfg.Resources.NomadResources` is
modelled as always present, as Nomad supplies it.  Outcomes of every
external call are oracle fields; the side effects are the `StartAction`
trace.  `startTaskPrep` covers everything before the `Validate` call, and
`startTaskRun` the whole operation. -/

structure PortSpec where
  label : String
  value : Int
  toPort : Int
deriving DecidableEq, Repr

structure GoNetwork where
  ip : String
  reservedPorts : List (String × Int)
  dynamicPorts : List (String × Int)
deriving DecidableEq, Repr

structure NomadResources where
  memoryMB : Int
  memoryMaxMB : Int
  networks : List GoNetwork
deriving DecidableEq, Repr

structure GoResources where
  nomadResources : NomadResources
  allocatedPorts : Option (List PortSpec)
deriving DecidableEq, Repr

structure MountConfig where
  hostPath : String
  taskPath : String
  readonly : Bool
deriving DecidableEq, Repr

structure TaskCfg where
  id : String
  name : String
  allocID : String
  env : List (String × String)
  networkIsolationPath : Option String
  sharedAllocDir : String
  localDir : String
  secretsDir : String
  taskDirsDir : String
  mounts : List MountConfig
  resources : GoResources
deriving DecidableEq, Repr

structure MachinePropsM where
  name : String
  leader : Nat
  networkInterfaces : List Int
deriving DecidableEq, Repr

structure StartOracle where
  alreadyStarted : Bool
  nixos : NixOSOracle
  pkgs : PkgOracle
  downloadResult : Except String Unit
  imagePathResult : Except String String
  statIsDir : Except String Bool
  bindOrder : List (String × String)
  bindROOrder : List (String × String)
  envOrder : List (String × String)
  portOrder : List (String × String)
  propOrder : List (String × String)
  createExecResult : Except String Unit
  launchExitCode : Except String Int
  describeResult : Except String MachinePropsM
  addrResult : Except String String
  netIFResult : Except String (List String)
  setStateResult : Except String Unit
  pluginExited : Bool
deriving Repr

/-- A read of a Go string map returning the zero value when absent. -/
def envGet (env : List (String × String)) (k : String) : String :=
  (mapLookup env k).getD ""

/-- Merging `cfg.Env` into the configured environment. -/
def mergeEnv (base add : List (String × String)) : List (String × String) :=
  add.foldl (fun m kv => mapSet m kv.1 kv.2) base

def strContainsDash (s : String) : Bool := s.data.contains '-'

def strReplaceDash (s : String) : String :=
  ⟨s.data.map (fun ch => if ch = '-' then '_' else ch)⟩

/-- The dash-rewriting loop over the environment map: every key containing
`-` is deleted and re-inserted with `-` replaced by `_` (iterating over a
snapshot of the entries; Go iterates the live map, which never revisits a
deleted key). -/
def fixEnvKeys (env : List (String × String)) : List (String × String) :=
  env.foldl (fun m kv =>
    if strContainsDash kv.1 then
      mapSet (mapErase m kv.1) (strReplaceDash kv.1) kv.2
    else m) env

/-- The `driverConfig.Ports` resolution loop against
`cfg.Resources.Ports`. -/
def resolveDeclaredPorts (allocated : List PortSpec) :
    List String → List (String × String) →
    Except String (List (String × String))
  | [], acc => .ok acc
  | port :: rest, acc =>
    match allocated.find? (fun p => p.label == port) with
    | none => .error ("Port " ++ port ++ " not found, check network stanza")
    | some p =>
      let toV := if p.toPort = 0 then p.value else p.toPort
      resolveDeclaredPorts allocated rest
        (mapSet acc port (toString p.value ++ ":" ++ toString toV))

/-- The deprecated `port_map` loop over one network's reserved or dynamic
ports. -/
def applyPortMap (pm : List (String × Int)) (networkPorts : List (String × Int))
    (acc : List (String × String)) : List (String × String) :=
  networkPorts.foldl (fun m pr =>
    let machinePort := match mapLookup pm pr.1 with
      | some mapped => mapped
      | none => pr.2
    mapSet m pr.1 (toString pr.2 ++ ":" ++ toString machinePort)) acc

/-- The configuration mutations `StartTask` performs before any build
step: machine-name derivation, the `Port` map reset, the
network-isolation overrides, the environment merge and dash-key
rewriting, the task-directory binds and the volume-mount binds
(driver.go:330-403). -/
def startMachineConfig (cfg : TaskCfg) (c0 : MachineConfig) : MachineConfig :=
  let sanitize := c0.sanitizeNames.getD true
  let mach := machineNameFor sanitize cfg.name cfg.allocID
  let c1 := { c0 with machine := mach }
  let c2 := { c1 with port := [] }
  let c3 := match cfg.networkIsolationPath with
    | some p =>
      { c2 with networkNamespace := p, userNamespacing := false, networkVeth := false }
    | none => c2
  let c4 := { c3 with environment := fixEnvKeys (mergeEnv c3.environment cfg.env) }
  let bind1 := mapSet c4.bind cfg.sharedAllocDir (envGet cfg.env "NOMAD_ALLOC_DIR")
  let bind2 := mapSet bind1 cfg.localDir (envGet cfg.env "NOMAD_TASK_DIR")
  let bind3 := mapSet bind2 cfg.secretsDir (envGet cfg.env "NOMAD_SECRETS_DIR")
  let c5 := { c4 with bind := bind3 }
  cfg.mounts.foldl (fun cc m =>
    if m.readonly then
      { cc with bindReadOnly := mapSet cc.bindReadOnly m.hostPath m.taskPath }
    else
      { cc with bind := mapSet cc.bind m.hostPath m.taskPath }) c5

/-- The NixOS branch of `StartTask` (driver.go:405-420): emit the build
event and run `prepareNixOS` when a NixOS reference is declared. -/
def nixosBuildStage (cfg : TaskCfg) (o : StartOracle)
    (acts : List StartAction) (c6 : MachineConfig) :
    Except String MachineConfig × List StartAction :=
  if c6.nixOS ≠ "" then
    let acts1 := acts ++ [StartAction.emitTaskEvent "Building NixOS"]
    match (prepareNixOS c6 cfg.taskDirsDir o.nixos).1 with
    | .error e => (.error e, acts1 ++ (prepareNixOS c6 cfg.taskDirsDir o.nixos).2)
    | .ok c7 => (.ok c7, acts1 ++ (prepareNixOS c6 cfg.taskDirsDir o.nixos).2)
  else (.ok c6, acts)

/-- The package-list branch of `StartTask` (driver.go:422-437). -/
def pkgsBuildStage (cfg : TaskCfg) (o : StartOracle)
    (acts : List StartAction) (c7 : MachineConfig) :
    Except String MachineConfig × List StartAction :=
  if c7.nixPackages.length > 0 then
    let acts3 := acts ++ [StartAction.emitTaskEvent "Building Nix Packages"]
    match (prepareNixPackages c7 cfg.taskDirsDir o.pkgs).1 with
    | .error e =>
      (.error e, acts3 ++ (prepareNixPackages c7 cfg.taskDirsDir o.pkgs).2)
    | .ok c8 =>
      (.ok c8, acts3 ++ (prepareNixPackages c7 cfg.taskDirsDir o.pkgs).2)
  else (.ok c7, acts)

/-- The memory-property and port-resolution section of `StartTask`
(driver.go:439-518). -/
def resourcePortStage (cfg : TaskCfg) (acts : List StartAction)
    (c8 : MachineConfig) : Except String MachineConfig × List StartAction :=
  let res := cfg.resources.nomadResources
  let props1 :=
    if res.memoryMaxMB ≠ 0 then
      mapSet (mapSet c8.properties "MemoryHigh"
          (toString (res.memoryMB * 1024 * 1024)))
        "MemoryMax" (toString (res.memoryMaxMB * 1024 * 1024))
    else
      mapSet c8.properties "MemoryMax" (toString (res.memoryMB * 1024 * 1024))
  let c9 := { c8 with properties := props1 }
  if c9.portMap.length > 0 ∧ c9.ports.length > 0 then
    (.error "Invalid port declaration; use of port_map and ports", acts)
  else if c9.portMap.length > 0 ∧ res.networks.length = 0 then
    (.error "Trying to map ports but no network interface is available", acts)
  else if c9.ports.length > 0 ∧ cfg.resources.allocatedPorts.isNone then
    (.error "No ports defined in network stanza", acts)
  else if c9.ports.length > 0 then
    match resolveDeclaredPorts (cfg.resources.allocatedPorts.getD [])
        c9.ports c9.port with
    | .error e => (.error e, acts)
    | .ok pm => (.ok { c9 with port := pm }, acts)
  else if c9.portMap.length > 0 then
    match res.networks with
    | [] => (.ok c9, acts)
    | n :: _ =>
      let pm1 := applyPortMap c9.portMap n.reservedPorts c9.port
      let pm2 := applyPortMap c9.portMap n.dynamicPorts pm1
      (.ok { c9 with port := pm2 }, acts)
  else (.ok c9, acts)

/-- Everything `StartTask` does before the `Validate` call: the
duplicate-ID check, OOM registration, the configuration mutations, the
volume-enablement check, the NixOS / package preparation steps, memory
properties, and port resolution.  Returns the config as it stands at the
`Validate` call site, plus the action trace so far. -/
def startTaskPrep (volumesEnabled : Bool) (cfg : TaskCfg)
    (c0 : MachineConfig) (o : StartOracle) :
    Except String MachineConfig × List StartAction :=
  if o.alreadyStarted then
    (.error ("task with ID " ++ cfg.id ++ " already started"), [])
  else
    let acts0 := [StartAction.registerOOM
      (machineNameFor (c0.sanitizeNames.getD true) cfg.name cfg.allocID)]
    if cfg.mounts.length > 0 ∧ ¬ volumesEnabled then
      (.error "volumes are not enabled; cannot mount host paths", acts0)
    else
      let ns := nixosBuildStage cfg o acts0 (startMachineConfig cfg c0)
      match ns.1 with
      | .error e => (.error e, ns.2)
      | .ok c7 =>
        let ps := pkgsBuildStage cfg o ns.2 c7
        match ps.1 with
        | .error e => (.error e, ps.2)
        | .ok c8 => resourcePortStage cfg ps.2 c8

/-- `Driver.StartTask` from decode to completion: preparation, `Validate`,
image download, image-path resolution, `ConfigArray`, executor creation,
launch, machine introspection with teardown on failure, address and
interface queries, forwarding-rule installation, state persistence and
registration.  `.ok` carries the machine name of the started task. -/
def startTaskRun (volumesEnabled : Bool) (cfg : TaskCfg)
    (c0 : MachineConfig) (o : StartOracle) :
    Except String String × List StartAction :=
  match (startTaskPrep volumesEnabled cfg c0 o).1 with
  | .error e => (.error e, (startTaskPrep volumesEnabled cfg c0 o).2)
  | .ok c =>
    let acts := (startTaskPrep volumesEnabled cfg c0 o).2
    match MachineConfig.Validate c with
    | some e => (.error ("failed to validate task config: " ++ e), acts)
    | none =>
      let dlStage : Except String Unit × List StartAction :=
        match c.imageDownload with
        | some dl =>
          let acts1 := acts ++ [StartAction.emitTaskEvent "Downloading image",
            StartAction.downloadImage dl.url]
          match o.downloadResult with
          | .error e => (.error ("failed to download image: " ++ e), acts1)
          | .ok _ => (.ok (), acts1)
        | none => (.ok (), acts)
      match dlStage with
      | (.error e, acts1) => (.error e, acts1)
      | (.ok _, acts1) =>
        match o.imagePathResult with
        | .error e => (.error ("failed to gather image path: " ++ e), acts1)
        | .ok ip =>
          let c10 := { c with imagePath := ip }
          match ConfigArray c10 o.statIsDir o.bindOrder o.bindROOrder
              o.envOrder o.portOrder o.propOrder with
          | .error e => (.error e, acts1)
          | .ok args =>
            let acts2 := acts1 ++ [StartAction.createExecutor]
            match o.createExecResult with
            | .error e => (.error ("failed to create executor: " ++ e), acts2)
            | .ok _ =>
              let acts3 := acts2 ++ [StartAction.launch args]
              match o.launchExitCode with
              | .error e =>
                (.error ("failed to launch command with executor: " ++ e),
                  acts3 ++ [StartAction.killPlugin])
              | .ok exitCode =>
                let acts4 := acts3 ++ [StartAction.describeMachine c10.machine]
                match o.describeResult with
                | .error e =>
                  let msg := if exitCode ≠ 0 then
                    "systemd-nspawn failed to start task" else e
                  let acts5 := if ¬ o.pluginExited then
                    acts4 ++ [StartAction.shutdownExec, StartAction.killPlugin]
                    else acts4
                  (.error msg, acts5)
                | .ok p =>
                  let postAddr : Except String Unit × List StartAction ×
                      List String :=
                    if p.networkInterfaces.length > 0 then
                      let acts5 := acts4 ++
                        [StartAction.getAddresses c10.machine]
                      match o.addrResult with
                      | .error e =>
                        let msg := if exitCode ≠ 0 then
                          "systemd-nspawn failed to start task" else e
                        let acts6 := if ¬ o.pluginExited then
                          acts5 ++ [StartAction.shutdownExec,
                            StartAction.killPlugin]
                          else acts5
                        (.error msg, acts6, [])
                      | .ok _ =>
                        let netIF := match o.netIFResult with
                          | .ok l => l
                          | .error _ => []
                        (.ok (), acts5, netIF)
                    else (.ok (), acts4, [])
                  match postAddr with
                  | (.error e, acts5, _) => (.error e, acts5)
                  | (.ok _, acts5, netIF) =>
                    let acts6 :=
                      if cfg.networkIsolationPath.isNone ∧
                          p.networkInterfaces.length > 0 then
                        acts5 ++ [StartAction.configureIPTables false netIF]
                      else acts5
                    match o.setStateResult with
                    | .error e =>
                      (.error ("failed to set driver state: " ++ e), acts6)
                    | .ok _ =>
                      (.ok c10.machine, acts6 ++ [StartAction.storeTask cfg.id])

/-- Actions belonging to the launch stage of `StartTask`: image download,
executor creation and the launch itself. -/
def isLaunchStageAction : StartAction → Bool
  | .launch _ => true
  | .createExecutor => true
  | .downloadImage _ => true
  | _ => false

/-- OS-image or package build steps. -/
def isBuildStepAction : StartAction → Bool
  | .nixBuild _ => true
  | .buildProfile _ _ => true
  | .buildClosure _ _ => true
  | _ => false

/-- No action in the list belongs to the launch stage. -/
def actsSafe (l : List StartAction) : Prop :=
  ∀ a ∈ l, !isLaunchStageAction a

theorem actsSafe_append {l1 l2 : List StartAction}
    (h1 : actsSafe l1) (h2 : actsSafe l2) : actsSafe (l1 ++ l2) := by
  intro a ha
  rcases List.mem_append.mp ha with h | h
  · exact h1 a h
  · exact h2 a h

theorem actsSafe_nil : actsSafe [] := by
  intro a ha
  cases ha

theorem actsSafe_cons {a : StartAction} {l : List StartAction}
    (h1 : !isLaunchStageAction a) (h2 : actsSafe l) : actsSafe (a :: l) := by
  intro b hb
  rcases List.mem_cons.mp hb with h | h
  · rw [h]; exact h1
  · exact h2 b h

theorem createUsr_actions_safe (c : MachineConfig) :
    actsSafe (createUsr c) := by
  unfold createUsr
  split
  · exact actsSafe_nil
  · exact actsSafe_cons rfl actsSafe_nil

theorem prepareNixOS_actions_safe (c : MachineConfig) (dir : String)
    (o : NixOSOracle) : actsSafe (prepareNixOS c dir o).2 := by
  unfold prepareNixOS
  cases hc : o.closureResult with
  | error e => exact actsSafe_cons rfl actsSafe_nil
  | ok closure =>
    cases ht : o.toplevelResult with
    | error e => exact actsSafe_cons rfl (actsSafe_cons rfl actsSafe_nil)
    | ok toplevel =>
      cases hr : o.requisitesResult with
      | error e =>
        exact actsSafe_cons rfl (actsSafe_cons rfl
          (actsSafe_cons rfl actsSafe_nil))
      | ok reqs =>
        exact actsSafe_cons rfl (actsSafe_cons rfl
          (actsSafe_cons rfl (createUsr_actions_safe _)))

theorem prepareNixPackages_actions_safe (c : MachineConfig) (dir : String)
    (o : PkgOracle) : actsSafe (prepareNixPackages c dir o).2 := by
  simp only [prepareNixPackages]
  cases hp : o.profileResult with
  | error e => exact actsSafe_cons rfl actsSafe_nil
  | ok profile =>
    cases hc : o.closureResult with
    | error e => exact actsSafe_cons rfl (actsSafe_cons rfl actsSafe_nil)
    | ok closure =>
      cases he : o.profileEntries with
      | error e => exact actsSafe_cons rfl (actsSafe_cons rfl actsSafe_nil)
      | ok entries =>
        simp only []
        cases ha : addProfileEntries profile o.etcEntries entries
            (mapSet c.bindReadOnly profile profile) with
        | error e =>
          exact actsSafe_cons rfl (actsSafe_cons rfl actsSafe_nil)
        | ok bro2 =>
          cases hr : o.requisitesResult with
          | error e =>
            exact actsSafe_cons rfl (actsSafe_cons rfl
              (actsSafe_cons rfl actsSafe_nil))
          | ok reqs =>
            exact actsSafe_cons rfl (actsSafe_cons rfl
              (actsSafe_cons rfl (createUsr_actions_safe _)))

theorem nixosBuildStage_actions_safe (cfg : TaskCfg) (o : StartOracle)
    (acts : List StartAction) (c6 : MachineConfig) (h : actsSafe acts) :
    actsSafe (nixosBuildStage cfg o acts c6).2 := by
  simp only [nixosBuildStage]
  split
  · split <;>
      exact actsSafe_append (actsSafe_append h (actsSafe_cons rfl actsSafe_nil))
        (prepareNixOS_actions_safe _ _ _)
  · exact h

theorem pkgsBuildStage_actions_safe (cfg : TaskCfg) (o : StartOracle)
    (acts : List StartAction) (c7 : MachineConfig) (h : actsSafe acts) :
    actsSafe (pkgsBuildStage cfg o acts c7).2 := by
  simp only [pkgsBuildStage]
  split
  · split <;>
      exact actsSafe_append (actsSafe_append h (actsSafe_cons rfl actsSafe_nil))
        (prepareNixPackages_actions_safe _ _ _)
  · exact h

theorem resourcePortStage_actions (cfg : TaskCfg) (acts : List StartAction)
    (c8 : MachineConfig) : (resourcePortStage cfg acts c8).2 = acts := by
  simp only [resourcePortStage]
  repeat' split
  all_goals rfl

theorem startTaskPrep_actions_safe (v : Bool) (cfg : TaskCfg)
    (c0 : MachineConfig) (o : StartOracle) :
    actsSafe (startTaskPrep v cfg c0 o).2 := by
  simp only [startTaskPrep]
  split
  · exact actsSafe_nil
  · split
    · exact actsSafe_cons rfl actsSafe_nil
    · split
      · exact nixosBuildStage_actions_safe _ _ _ _
          (actsSafe_cons rfl actsSafe_nil)
      · split
        · exact pkgsBuildStage_actions_safe _ _ _ _
            (nixosBuildStage_actions_safe _ _ _ _
              (actsSafe_cons rfl actsSafe_nil))
        · rw [resourcePortStage_actions]
          exact pkgsBuildStage_actions_safe _ _ _ _
            (nixosBuildStage_actions_safe _ _ _ _
              (actsSafe_cons rfl actsSafe_nil))

/-- Claim C4 (amended): whenever the configuration reaching the `Validate`
call site is rejected, `StartTask` surfaces the configuration error and
the action trace contains no image download, no executor creation and no
launch of the container supervisor — but the trace is exactly the
preparation trace, which (per the counterexample) may already contain
OS-image or package build steps. -/
theorem C4_validate_rejected_means_no_launch
    (v : Bool) (cfg : TaskCfg) (c0 : MachineConfig) (o : StartOracle)
    (c : MachineConfig) (e : String)
    (hprep : (startTaskPrep v cfg c0 o).1 = .ok c)
    (hval : MachineConfig.Validate c = some e) :
    startTaskRun v cfg c0 o =
      (.error ("failed to validate task config: " ++ e),
        (startTaskPrep v cfg c0 o).2) ∧
    actsSafe (startTaskPrep v cfg c0 o).2 := by
  refine ⟨?_, startTaskPrep_actions_safe v cfg c0 o⟩
  unfold startTaskRun
  rw [hprep]
  simp [hval]

def cfgC4 : TaskCfg :=
  { id := "t1",
    name := "redis",
    allocID := "a1",
    env := [("NOMAD_ALLOC_DIR", "/alloc"), ("NOMAD_TASK_DIR", "/local"),
      ("NOMAD_SECRETS_DIR", "/secrets")],
    networkIsolationPath := none,
    sharedAllocDir := "/host/alloc",
    localDir := "/host/local",
    secretsDir := "/host/secrets",
    taskDirsDir := "/host/task",
    mounts := [],
    resources :=
      { nomadResources := { memoryMB := 256, memoryMaxMB := 0, networks := [] },
        allocatedPorts := none } }

/-- A config combining `boot`, `process_two` and a declared package
list. -/
def mcC4 : MachineConfig :=
  { boot := true, processTwo := true, nixPackages := ["nixpkgs#hello"] }

def oracleC4 : StartOracle :=
  { alreadyStarted := false,
    nixos :=
      { closureResult := .error "",
        toplevelResult := .error "",
        requisitesResult := .error "" },
    pkgs :=
      { cwd := "/wd",
        profileResult := .ok "/nix/store/p",
        closureResult := .ok "/nix/store/c",
        profileEntries := .ok ["bin"],
        etcEntries := .ok [],
        requisitesResult := .ok [] },
    downloadResult := .ok (),
    imagePathResult := .ok "",
    statIsDir := .ok false,
    bindOrder := [], bindROOrder := [], envOrder := [], portOrder := [],
    propOrder := [],
    createExecResult := .ok (),
    launchExitCode := .ok 0,
    describeResult := .error "unused",
    addrResult := .error "unused",
    netIFResult := .ok [],
    setStateResult := .ok (),
    pluginExited := true }

set_option maxRecDepth 100000 in
/-- Claim C4 counterexample: a spec combining `boot=true`,
`process_two=true` and a declared package list is rejected by `Validate`
— the configuration error is surfaced and no launch occurs — but the
package build steps have already been invoked before validation, contrary
to the claim that no image/package build step runs. -/
theorem C4_build_runs_before_validate_counterexample :
    (startTaskRun true cfgC4 mcC4 oracleC4).1 =
      .error
        "failed to validate task config: boot and process_two may not be combined" ∧
    (startTaskRun true cfgC4 mcC4 oracleC4).2.any isBuildStepAction = true ∧
    (startTaskRun true cfgC4 mcC4 oracleC4).2.any isLaunchStageAction =
      false := by
  refine ⟨by decide, by decide, by decide⟩

def cfgC4w : TaskCfg :=
  { id := "t2", name := "", allocID := "", env := [],
    networkIsolationPath := none, sharedAllocDir := "", localDir := "",
    secretsDir := "", taskDirsDir := "", mounts := [],
    resources :=
      { nomadResources := { memoryMB := 0, memoryMaxMB := 0, networks := [] },
        allocatedPorts := none } }

def mcC4w : MachineConfig := { boot := true, processTwo := true }

/-- The configuration `startTaskPrep` produces for `cfgC4w` / `mcC4w`. -/
def cC4w : MachineConfig :=
  { boot := true, processTwo := true, machine := "-", bind := [("", "")],
    properties := [("MemoryMax", "0")] }

set_option maxRecDepth 100000 in
/-- Witness for the amended C4 at concrete inputs. -/
theorem C4_validate_rejected_means_no_launch_witness :
    ((startTaskPrep true cfgC4w mcC4w oracleC4).1 = .ok cC4w ∧
      MachineConfig.Validate cC4w =
        some "boot and process_two may not be combined") ∧
    startTaskRun true cfgC4w mcC4w oracleC4 =
      (.error ("failed to validate task config: " ++
        "boot and process_two may not be combined"),
        (startTaskPrep true cfgC4w mcC4w oracleC4).2) ∧
    actsSafe (startTaskPrep true cfgC4w mcC4w oracleC4).2 :=
  ⟨⟨by decide, by decide⟩,
    C4_validate_rejected_means_no_launch true cfgC4w mcC4w oracleC4 cC4w
      "boot and process_two may not be combined" (by decide) (by decide)⟩

/-! ### Wait-result composition (nix/driver.go, `Driver.handleWait`)

`handleWait` waits for the executor's process result, then gives the OOM
listener a fixed five-second grace window: the `select` either times out
(`none`) or receives a correlated OOM event (`some e`) on the driver's OOM
channel, in which case the exit result is overwritten.  Afterwards the
machine is always deregistered from the listener. -/

structure ExitResult where
  exitCode : Int
  signal : Int
  oomKilled : Bool
  err : Option String
deriving DecidableEq, Repr

inductive WaitAction
  | deregister (machine : String)
deriving DecidableEq, Repr

/-- `Driver.handleWait`: `waitResult` is `exec.Wait`'s outcome (exit code,
signal), `oomWithinWindow` the outcome of the grace-window `select`. -/
def handleWait (waitResult : Except String (Int × Int))
    (oomWithinWindow : Option OOM) (machineName : String) :
    ExitResult × List WaitAction :=
  let result : ExitResult :=
    match waitResult with
    | .error e =>
      { exitCode := 0, signal := 0, oomKilled := false,
        err := some ("executor: error waiting on process: " ++ e) }
    | .ok ps =>
      { exitCode := ps.1, signal := ps.2, oomKilled := false, err := none }
  let result2 :=
    match oomWithinWindow with
    | some _ => { result with oomKilled := true, err := some "Out of memory" }
    | none => result
  (result2, [.deregister machineName])

/-- Claim C3: if no correlated OOM arrives within the grace window the
exit result carries the raw exit code (137 or any other) with the OOM
flag unset; if one arrives, the result is overwritten to an out-of-memory
kill regardless of the exit code; and the machine is deregistered from the
OOM listener in every case. -/
theorem C3_handleWait_composition (code sig : Int) (name : String) (e : OOM) :
    handleWait (.ok (code, sig)) none name =
      ({ exitCode := code, signal := sig, oomKilled := false, err := none },
        [.deregister name]) ∧
    ((handleWait (.ok (code, sig)) (some e) name).1.oomKilled = true ∧
      (handleWait (.ok (code, sig)) (some e) name).1.err =
        some "Out of memory") ∧
    (∀ w : Except String (Int × Int), ∀ oo : Option OOM,
      WaitAction.deregister name ∈ (handleWait w oo name).2) := by
  refine ⟨rfl, ⟨rfl, rfl⟩, ?_⟩
  intro w oo
  cases w <;> cases oo <;> simp [handleWait]

/-! ### StopTask (nix/driver.go, `Driver.StopTask`)

Forwarding-rule removal happens only when the task is tracked, network
isolation is not externally managed, at least one interface exists and the
first interface is not a `vz-`-prefixed host-managed zone interface; a
rule-removal failure is only logged.  Shutdown failure is tolerated when
the executor plugin has already exited. -/

inductive StopAction
  | removeForwardingRules (ifaces : List String)
  | shutdownWithSignal (signal : String) (timeoutMs : Int)
deriving DecidableEq, Repr

/-- `Driver.StopTask`.  `found` is the task-store lookup outcome,
`netIsolationExternal` the handle's `NetworkIsolation` field, `interfaces`
the handle's recorded interfaces, `shutdownResult` the executor
`Shutdown` outcome and `pluginExited` the plugin-client state. -/
def stopTask (found : Bool) (netIsolationExternal : Option String)
    (interfaces : List String) (shutdownResult : Except String Unit)
    (pluginExited : Bool) (signal : String) (timeoutMs : Int) :
    Except String Unit × List StopAction :=
  if ¬ found then (.error "task not found for given id", [])
  else
    let doRules := netIsolationExternal.isNone &&
      (match interfaces with
       | [] => false
       | i :: _ => !("vz-".data.isPrefixOf i.data))
    let acts := if doRules then [StopAction.removeForwardingRules interfaces]
      else []
    let acts2 := acts ++ [StopAction.shutdownWithSignal signal timeoutMs]
    match shutdownResult with
    | .ok _ => (.ok (), acts2)
    | .error e =>
      if pluginExited then (.ok (), acts2)
      else (.error ("StopTask: executor Shutdown failed: " ++ e), acts2)

/-- Claim C9: `StopTask` never touches the firewall-rule service when
network isolation is externally managed, and rule removal is attempted
exactly when the task is tracked, isolation is not externally managed, at
least one interface exists and the first interface is not `vz-`-prefixed. -/
theorem C9_stopTask_firewall_frame (found : Bool) (iso : Option String)
    (ifs : List String) (sr : Except String Unit) (pe : Bool) (sig : String)
    (t : Int) :
    (iso.isSome →
      ∀ l, StopAction.removeForwardingRules l ∉
        (stopTask found iso ifs sr pe sig t).2) ∧
    (StopAction.removeForwardingRules ifs ∈
        (stopTask found iso ifs sr pe sig t).2 ↔
      (found ∧ iso = none ∧
        (match ifs with
          | [] => False
          | i :: _ => ¬ ("vz-".data.isPrefixOf i.data = true)))) := by
  cases found with
  | false => simp [stopTask]
  | true =>
    cases iso with
    | some p =>
      cases sr with
      | ok u => simp [stopTask]
      | error e => cases pe <;> simp [stopTask]
    | none =>
      cases ifs with
      | nil =>
        cases sr with
        | ok u => simp [stopTask]
        | error e => cases pe <;> simp [stopTask]
      | cons i rest =>
        by_cases hvz : ("vz-".data.isPrefixOf i.data) = true <;>
          cases sr with
          | ok u => simp [stopTask, hvz]
          | error e => cases pe <;> simp [stopTask, hvz]

/-! ### SignalTask (nix/driver.go, `Driver.SignalTask`; nix/nspawn.go,
`SignalLookup`)

The fixed signal table; `os.Interrupt` is `syscall.SIGINT`.  (On Linux the
table's `SIGIO` entry is the signal also named `SIGPOLL`, the constructor
name used below, and `syscall.SIGIOT` is numerically `SIGABRT`; the table
distinguishes entries only by key.) -/

inductive GoSignal
  | SIGABRT | SIGALRM | SIGBUS | SIGCHLD | SIGCONT | SIGFPE | SIGHUP
  | SIGILL | SIGINT | SIGPOLL | SIGIOT | SIGKILL | SIGPIPE | SIGPROF
  | SIGQUIT | SIGSEGV | SIGSTOP | SIGSYS | SIGTERM | SIGTRAP | SIGTSTP
  | SIGTTIN | SIGTTOU | SIGURG | SIGUSR1 | SIGUSR2 | SIGWINCH | SIGXCPU
  | SIGXFSZ
deriving DecidableEq, Repr

def SignalLookup (s : String) : Option GoSignal :=
  match s with
  | "SIGABRT" => some .SIGABRT
  | "SIGALRM" => some .SIGALRM
  | "SIGBUS" => some .SIGBUS
  | "SIGCHLD" => some .SIGCHLD
  | "SIGCONT" => some .SIGCONT
  | "SIGFPE" => some .SIGFPE
  | "SIGHUP" => some .SIGHUP
  | "SIGILL" => some .SIGILL
  | "SIGINT" => some .SIGINT
  | "SIGIO" => some .SIGPOLL
  | "SIGIOT" => some .SIGIOT
  | "SIGKILL" => some .SIGKILL
  | "SIGPIPE" => some .SIGPIPE
  | "SIGPROF" => some .SIGPROF
  | "SIGQUIT" => some .SIGQUIT
  | "SIGSEGV" => some .SIGSEGV
  | "SIGSTOP" => some .SIGSTOP
  | "SIGSYS" => some .SIGSYS
  | "SIGTERM" => some .SIGTERM
  | "SIGTRAP" => some .SIGTRAP
  | "SIGTSTP" => some .SIGTSTP
  | "SIGTTIN" => some .SIGTTIN
  | "SIGTTOU" => some .SIGTTOU
  | "SIGURG" => some .SIGURG
  | "SIGUSR1" => some .SIGUSR1
  | "SIGUSR2" => some .SIGUSR2
  | "SIGWINCH" => some .SIGWINCH
  | "SIGXCPU" => some .SIGXCPU
  | "SIGXFSZ" => some .SIGXFSZ
  | _ => none

def osInterrupt : GoSignal := .SIGINT

/-- `Driver.SignalTask`: look the name up in `SignalLookup`, falling back
to `os.Interrupt` with only a warning log, then forward to
`exec.Signal`. -/
def signalTask (found : Bool) (signal : String)
    (execSignalResult : Except String Unit) :
    Except String Unit × Option GoSignal :=
  if ¬ found then (.error "task not found for given id", none)
  else
    let sig := match SignalLookup signal with
      | some s => s
      | none => osInterrupt
    (match execSignalResult with
      | .ok _ => .ok ()
      | .error e => .error e, some sig)

/-- Claim C10: for a tracked task, an unrecognized signal name never makes
`SignalTask` fail; the signal actually sent is `os.Interrupt` (SIGINT),
and the call's result is just `exec.Signal`'s result. -/
theorem C10_signalTask_unknown_name_falls_back (signal : String)
    (h : SignalLookup signal = none) :
    (signalTask true signal (.ok ())).1 = .ok () ∧
    (∀ r, (signalTask true signal r).2 = some osInterrupt) ∧
    (∀ r, (signalTask true signal r).1 = r) := by
  refine ⟨by simp [signalTask], ?_, ?_⟩
  · intro r
    simp [signalTask, h]
  · intro r
    cases r <;> simp [signalTask]

/-- Witness for C10 at a concrete unrecognized signal name. -/
theorem C10_signalTask_unknown_name_falls_back_witness :
    SignalLookup "SIGFOO" = none ∧
    (signalTask true "SIGFOO" (.ok ())).1 = .ok () ∧
    (signalTask true "SIGFOO" (.ok ())).2 = some osInterrupt :=
  ⟨by decide,
    (C10_signalTask_unknown_name_falls_back "SIGFOO" (by decide)).1,
    (C10_signalTask_unknown_name_falls_back "SIGFOO" (by decide)).2.1 _⟩
